import Mathlib

/-!
Shallow embedding of the Resilient Subscription Session of
`src/src/bin/client.rs` (Solana real-time indexer client):

* string utilities modelling `str::split_once`, `str::parse::<u64>` and
  `str::trim` as used by the builder;
* the `SubscribeRequest` record family (the yellowstone proto messages the
  client constructs);
* `Action::get_subscribe_request`, the filter-request builder;
* `geyser_subscribe`, the subscription session loop, modelled as a function
  from the list of inbound stream items to the trace of session events
  (message consumptions and outbound sends) and a session result;
* the retry/backoff supervisor in `main`, modelled as a fold over the
  per-attempt connection outcomes.
-/

/-! ## String utilities -/

/-- Model of `str::split_once(sep)` on the character list: split at the first
occurrence of `sep`, returning the parts before and after it. -/
def splitOnceAux (sep : Char) : List Char → Option (List Char × List Char)
  | [] => none
  | c :: cs =>
    if c = sep then some ([], cs)
    else (splitOnceAux sep cs).map (fun p => (c :: p.1, p.2))

/-- Model of `str::split_once(sep)`. -/
def splitOnce (s : String) (sep : Char) : Option (String × String) :=
  (splitOnceAux sep s.data).map (fun p => (String.mk p.1, String.mk p.2))

/-- Decimal value of a digit list, most significant first. -/
def digitsVal (cs : List Char) : Nat :=
  cs.foldl (fun a c => a * 10 + (c.toNat - '0'.toNat)) 0

/-- Model of `str::parse::<u64>()`: an optional leading `'+'`, then a
non-empty run of ASCII digits, value below `2 ^ 64`; anything else fails. -/
def parseU64 (s : String) : Option Nat :=
  let cs := match s.data with
    | '+' :: rest => rest
    | cs => cs
  if cs ≠ [] ∧ cs.all Char.isDigit then
    let n := digitsVal cs
    if n < 2 ^ 64 then some n else none
  else none

/-- Model of `str::trim`: strip whitespace from both ends (the whitespace
classes differ from Rust only on exotic Unicode, which no claim exercises). -/
def trimStr (s : String) : String :=
  String.mk (((s.data.dropWhile Char.isWhitespace).reverse.dropWhile
    Char.isWhitespace).reverse)

/-! ## Data model: the proto records the client constructs -/

/-- `subscribe_request_filter_accounts_filter_memcmp::Data` oneof. -/
inductive AccountsFilterMemcmpData
  | bytes (b : List Nat)
  | base58 (s : String)
  | base64 (s : String)
deriving DecidableEq

structure SubscribeRequestFilterAccountsFilterMemcmp where
  offset : Nat
  data : Option AccountsFilterMemcmpData
deriving DecidableEq

/-- `subscribe_request_filter_accounts_filter_lamports::Cmp` oneof. -/
inductive AccountsFilterLamportsCmp
  | eq (v : Nat)
  | ne (v : Nat)
  | lt (v : Nat)
  | gt (v : Nat)
deriving DecidableEq

structure SubscribeRequestFilterAccountsFilterLamports where
  cmp : Option AccountsFilterLamportsCmp
deriving DecidableEq

/-- `subscribe_request_filter_accounts_filter::Filter` oneof. -/
inductive AccountsFilterOneof
  | memcmp (m : SubscribeRequestFilterAccountsFilterMemcmp)
  | datasize (n : Nat)
  | tokenAccountState (b : Bool)
  | lamports (l : SubscribeRequestFilterAccountsFilterLamports)
deriving DecidableEq

structure SubscribeRequestFilterAccountsFilter where
  filter : Option AccountsFilterOneof
deriving DecidableEq

structure SubscribeRequestFilterAccounts where
  account : List String
  owner : List String
  filters : List SubscribeRequestFilterAccountsFilter
  nonempty_txn_signature : Option Bool
deriving DecidableEq

structure SubscribeRequestFilterSlots where
  filter_by_commitment : Option Bool
  interslot_updates : Option Bool
deriving DecidableEq

structure SubscribeRequestFilterTransactions where
  vote : Option Bool
  failed : Option Bool
  signature : Option String
  account_include : List String
  account_exclude : List String
  account_required : List String
deriving DecidableEq

structure SubscribeRequestFilterEntry

deriving instance DecidableEq for SubscribeRequestFilterEntry

structure SubscribeRequestFilterBlocks where
  account_include : List String
  include_transactions : Option Bool
  include_accounts : Option Bool
  include_entries : Option Bool
deriving DecidableEq

structure SubscribeRequestFilterBlocksMeta

deriving instance DecidableEq for SubscribeRequestFilterBlocksMeta

structure SubscribeRequestAccountsDataSlice where
  offset : Nat
  length : Nat
deriving DecidableEq

structure SubscribeRequestPing where
  id : Int
deriving DecidableEq

/-- The category filter maps (`HashMap<String, _>` in the client, with at most
the single key `"client"`), modelled as association lists. -/
abbrev SlotsFilterMap := List (String × SubscribeRequestFilterSlots)
abbrev AccountFilterMap := List (String × SubscribeRequestFilterAccounts)
abbrev TransactionsFilterMap := List (String × SubscribeRequestFilterTransactions)
abbrev EntryFilterMap := List (String × SubscribeRequestFilterEntry)
abbrev BlocksFilterMap := List (String × SubscribeRequestFilterBlocks)
abbrev BlocksMetaFilterMap := List (String × SubscribeRequestFilterBlocksMeta)

structure SubscribeRequest where
  accounts : AccountFilterMap
  slots : SlotsFilterMap
  transactions : TransactionsFilterMap
  transactions_status : TransactionsFilterMap
  entry : EntryFilterMap
  blocks : BlocksFilterMap
  blocks_meta : BlocksMetaFilterMap
  commitment : Option Int
  accounts_data_slice : List SubscribeRequestAccountsDataSlice
  ping : Option SubscribeRequestPing
  from_slot : Option Nat
deriving DecidableEq

/-- `SubscribeRequest::default()` (prost defaults: empty maps, `None` fields). -/
def SubscribeRequest.default : SubscribeRequest where
  accounts := []
  slots := []
  transactions := []
  transactions_status := []
  entry := []
  blocks := []
  blocks_meta := []
  commitment := none
  accounts_data_slice := []
  ping := none
  from_slot := none

/-- The `ActionSubscribe` CLI options record (only the fields
`get_subscribe_request` reads). -/
structure ActionSubscribe where
  accounts : Bool
  accounts_nonempty_txn_signature : Option Bool
  accounts_account : List String
  accounts_account_path : Option String
  accounts_owner : List String
  accounts_memcmp : List String
  accounts_datasize : Option Nat
  accounts_token_account_state : Bool
  accounts_lamports : List String
  accounts_data_slice : List String
  slots : Bool
  slots_filter_by_commitment : Option Bool
  slots_interslot_updates : Option Bool
  transactions : Bool
  transactions_vote : Option Bool
  transactions_failed : Option Bool
  transactions_signature : Option String
  transactions_account_include : List String
  transactions_account_exclude : List String
  transactions_account_required : List String
  transactions_status : Bool
  transactions_status_vote : Option Bool
  transactions_status_failed : Option Bool
  transactions_status_signature : Option String
  transactions_status_account_include : List String
  transactions_status_account_exclude : List String
  transactions_status_account_required : List String
  entries : Bool
  blocks : Bool
  blocks_account_include : List String
  blocks_include_transactions : Option Bool
  blocks_include_accounts : Option Bool
  blocks_include_entries : Option Bool
  blocks_meta : Bool
  from_slot : Option Nat
  ping : Option Int
  resub : Option Nat
  stats : Bool
  verify_encoding : Bool
deriving DecidableEq

/-- The all-defaults options record (the initial record of
`interactive_subscribe_prompt`, and clap's defaults). -/
def baseOpts : ActionSubscribe where
  accounts := false
  accounts_nonempty_txn_signature := none
  accounts_account := []
  accounts_account_path := none
  accounts_owner := []
  accounts_memcmp := []
  accounts_datasize := none
  accounts_token_account_state := false
  accounts_lamports := []
  accounts_data_slice := []
  slots := false
  slots_filter_by_commitment := none
  slots_interslot_updates := none
  transactions := false
  transactions_vote := none
  transactions_failed := none
  transactions_signature := none
  transactions_account_include := []
  transactions_account_exclude := []
  transactions_account_required := []
  transactions_status := false
  transactions_status_vote := none
  transactions_status_failed := none
  transactions_status_signature := none
  transactions_status_account_include := []
  transactions_status_account_exclude := []
  transactions_status_account_required := []
  entries := false
  blocks := false
  blocks_account_include := []
  blocks_include_transactions := none
  blocks_include_accounts := none
  blocks_include_entries := none
  blocks_meta := false
  from_slot := none
  ping := none
  resub := none
  stats := false
  verify_encoding := false

/-! ## FilterRequestBuilder: `Action::get_subscribe_request` -/

/-- The distinct `anyhow::bail!` / error sites of `get_subscribe_request`,
each carrying the offending token where the message does. -/
inductive VErr
  | invalidOffset
  | invalidMemcmp
  | invalidLamportsValue (value : String)
  | invalidLamportsFilter (cmp : String)
  | invalidLamports
  | invalidDataSlice
  | fileReadError (msg : String)
deriving DecidableEq

/-- The `accounts_memcmp` loop: each string must split at a comma, the offset
part must parse as `u64`; the data part is trimmed and stored as base-58. -/
def buildMemcmpFilters : List String → Except VErr (List SubscribeRequestFilterAccountsFilter)
  | [] => .ok []
  | s :: rest =>
    match splitOnce s ',' with
    | some (off, data) =>
      match parseU64 off with
      | some o =>
        (buildMemcmpFilters rest).map
          (fun fs => ⟨some (.memcmp ⟨o, some (.base58 (trimStr data))⟩)⟩ :: fs)
      | none => .error .invalidOffset
    | none => .error .invalidMemcmp

/-- The `accounts_lamports` comparator table (`eq`/`ne`/`lt`/`gt`). -/
def lamportsCmpOf (cmp : String) (v : Nat) : Option AccountsFilterLamportsCmp :=
  match cmp with
  | "eq" => some (.eq v)
  | "ne" => some (.ne v)
  | "lt" => some (.lt v)
  | "gt" => some (.gt v)
  | _ => none

/-- The `accounts_lamports` loop: each string must split at a colon, the value
part must parse as `u64` (checked first), the comparator must be one of the
four known tags. -/
def buildLamportsFilters : List String → Except VErr (List SubscribeRequestFilterAccountsFilter)
  | [] => .ok []
  | s :: rest =>
    match splitOnce s ':' with
    | some (cmp, value) =>
      match parseU64 value with
      | none => .error (.invalidLamportsValue value)
      | some v =>
        match lamportsCmpOf cmp v with
        | some l => (buildLamportsFilters rest).map (fun fs => ⟨some (.lamports ⟨some l⟩)⟩ :: fs)
        | none => .error (.invalidLamportsFilter cmp)
    | none => .error .invalidLamports

/-- The `accounts_data_slice` loop: each string must split at a comma with
both parts parsing as `u64`. -/
def buildDataSlices : List String → Except VErr (List SubscribeRequestAccountsDataSlice)
  | [] => .ok []
  | s :: rest =>
    match splitOnce s ',' with
    | some (off, len) =>
      match parseU64 off, parseU64 len with
      | some o, some l => (buildDataSlices rest).map (fun ds => ⟨o, l⟩ :: ds)
      | _, _ => .error .invalidDataSlice
    | none => .error .invalidDataSlice

/-- The accounts-category block of `get_subscribe_request`: when the
`accounts` flag is set, read the optional address file (`fileEnv` models the
filesystem: path to either the parsed address list or a read/parse error),
build the memcmp filters, append the datasize / token-account-state filters,
build the lamports filters, and insert the single `"client"` entry; when the
flag is unset the map stays empty. -/
def buildAccountsMap (opts : ActionSubscribe)
    (fileEnv : String → Except VErr (List String)) : Except VErr AccountFilterMap :=
  if opts.accounts then
    match (match opts.accounts_account_path with
           | some p => (fileEnv p).map (fun l => opts.accounts_account ++ l)
           | none => .ok opts.accounts_account) with
    | .error e => .error e
    | .ok accts =>
      match buildMemcmpFilters opts.accounts_memcmp with
      | .error e => .error e
      | .ok fs1 =>
        let fs2 := fs1
          ++ (match opts.accounts_datasize with
              | some d => [⟨some (.datasize d)⟩]
              | none => [])
          ++ (if opts.accounts_token_account_state
              then [⟨some (.tokenAccountState true)⟩] else [])
        match buildLamportsFilters opts.accounts_lamports with
        | .error e => .error e
        | .ok fs3 =>
          .ok [("client",
            { account := accts
              owner := opts.accounts_owner
              filters := fs2 ++ fs3
              nonempty_txn_signature := opts.accounts_nonempty_txn_signature })]
  else .ok []

/-- `Action::get_subscribe_request` restricted to the `Action::Subscribe` arm
(the other actions yield `Ok(None)`): builds the request, the resubscribe
threshold (`resub.unwrap_or(0)`), and the `stats` / `verify_encoding` flags,
or fails with the first validation error in source order. -/
def get_subscribe_request (opts : ActionSubscribe) (commitment : Option Int)
    (fileEnv : String → Except VErr (List String)) :
    Except VErr (SubscribeRequest × Nat × Bool × Bool) :=
  match buildAccountsMap opts fileEnv with
  | .error e => .error e
  | .ok accounts =>
    let slots : SlotsFilterMap :=
      if opts.slots then
        [("client", { filter_by_commitment := opts.slots_filter_by_commitment
                      interslot_updates := opts.slots_interslot_updates })]
      else []
    let transactions : TransactionsFilterMap :=
      if opts.transactions then
        [("client", { vote := opts.transactions_vote
                      failed := opts.transactions_failed
                      signature := opts.transactions_signature
                      account_include := opts.transactions_account_include
                      account_exclude := opts.transactions_account_exclude
                      account_required := opts.transactions_account_required })]
      else []
    let transactions_status : TransactionsFilterMap :=
      if opts.transactions_status then
        [("client", { vote := opts.transactions_status_vote
                      failed := opts.transactions_status_failed
                      signature := opts.transactions_status_signature
                      account_include := opts.transactions_status_account_include
                      account_exclude := opts.transactions_status_account_exclude
                      account_required := opts.transactions_status_account_required })]
      else []
    let entry : EntryFilterMap :=
      if opts.entries then [("client", SubscribeRequestFilterEntry.mk)] else []
    let blocks : BlocksFilterMap :=
      if opts.blocks then
        [("client", { account_include := opts.blocks_account_include
                      include_transactions := opts.blocks_include_transactions
                      include_accounts := opts.blocks_include_accounts
                      include_entries := opts.blocks_include_entries })]
      else []
    let blocks_meta : BlocksMetaFilterMap :=
      if opts.blocks_meta then [("client", SubscribeRequestFilterBlocksMeta.mk)] else []
    match buildDataSlices opts.accounts_data_slice with
    | .error e => .error e
    | .ok accounts_data_slice =>
      .ok ({ accounts := accounts
             slots := slots
             transactions := transactions
             transactions_status := transactions_status
             entry := entry
             blocks := blocks
             blocks_meta := blocks_meta
             commitment := commitment
             accounts_data_slice := accounts_data_slice
             ping := opts.ping.map (fun i => ⟨i⟩)
             from_slot := opts.from_slot },
           opts.resub.getD 0, opts.stats, opts.verify_encoding)

/-- A filesystem environment with no readable address files needed
(never consulted by the concrete inputs below, which set no path). -/
def fileEnvEmpty : String → Except VErr (List String) := fun _ => .ok []

/-! ## SubscriptionSession: `geyser_subscribe` -/

/-- The tagged variant of `subscribe_update::UpdateOneof`. -/
inductive UpdateVariant
  | account
  | slot
  | transaction
  | transactionStatus
  | entry
  | blockMeta
  | block
  | ping
  | pong
deriving DecidableEq

/-- An inbound `SubscribeUpdate`, abstracted to the fields the session loop
inspects: whether `created_at` is populated, whether the variant payload
decodes successfully on the display path (account/pubkey/signature/status
sub-fields), and the tagged variant (`none` models a message carrying no
recognized variant). -/
structure SubscribeUpdateMsg where
  hasCreatedAt : Bool
  payloadOk : Bool
  variant : Option UpdateVariant
deriving DecidableEq

/-- One item of the inbound stream: `Ok(msg)` or a stream-level `Err`. -/
inductive StreamItem
  | msg (u : SubscribeUpdateMsg)
  | streamErr
deriving DecidableEq

/-- How `geyser_subscribe` ends: `ok` models the function returning `Ok(())`
(the `while` loop ended or was left through `break`), `err` models an early
`return Err(..)` through the `?` operator. -/
inductive SessionResult
  | ok
  | err
deriving DecidableEq

/-- The keepalive reply sent on `Ping`: `SubscribeRequest { ping: Some(id: 1),
..Default::default() }`. -/
def pongReply : SubscribeRequest :=
  { SubscribeRequest.default with ping := some ⟨1⟩ }

/-- The resubscription request sent when the counter hits `resub`: a single
default slots entry under `"client"`, every other category cleared. -/
def resubRequest : SubscribeRequest :=
  { SubscribeRequest.default with
      slots := [("client", { filter_by_commitment := none, interslot_updates := none })] }

/-- Result of processing one `Ok` message inside the loop body: `halt r`
leaves the loop (through `break`, giving `r = .ok`, or through `?`, giving
`r = .err`); `cont sends` reaches the end of the loop body (the stats arm via
`continue`, skipping the resubscription counter), having sent `sends`. -/
inductive StepRes
  | halt (r : SessionResult)
  | cont (sends : List SubscribeRequest)
deriving DecidableEq

/-- The body of the `match message { Ok(msg) => .. }` arm. In stats mode the
message is only counted (no sends) and a missing variant breaks the loop; the
encoding-verifier sub-path touches no outbound state and is not modelled. In
display mode a missing `created_at` is an error (checked before the variant
match), a missing variant breaks the loop, `Ping` sends the keepalive reply,
`Pong` does nothing, and any data variant either prints (payload decodes) or
errors out of the function. -/
def processMsg (stats : Bool) (u : SubscribeUpdateMsg) : StepRes :=
  if stats then
    match u.variant with
    | none => .halt .ok
    | some _ => .cont []
  else
    if u.hasCreatedAt then
      match u.variant with
      | none => .halt .ok
      | some .ping => .cont [pongReply]
      | some .pong => .cont []
      | some _ => if u.payloadOk then .cont [] else .halt .err
    else .halt .err

/-- An observable event of the session: consuming one inbound stream item, or
sending one outbound request on `subscribe_tx`. -/
inductive SessionEvent
  | recv (item : StreamItem)
  | send (r : SubscribeRequest)
deriving DecidableEq

/-- The `while let Some(message) = stream.next()` loop of `geyser_subscribe`,
as a function from the counter value and the remaining inbound items to the
trace of events and the session result. A stream-level `Err` breaks the loop
(result `ok`, matching the `break` then `Ok(())` at the end of the function).
After a non-`continue` loop body the counter is incremented and, when it
equals `resub`, the resubscription request is sent. -/
def subscribeLoop (resub : Nat) (stats : Bool) :
    Nat → List StreamItem → List SessionEvent × SessionResult
  | _, [] => ([], .ok)
  | _, .streamErr :: _ => ([.recv .streamErr], .ok)
  | c, .msg u :: rest =>
    match processMsg stats u with
    | .halt r => ([.recv (.msg u)], r)
    | .cont sends =>
      if stats then
        (.recv (.msg u) :: sends.map .send ++ (subscribeLoop resub stats c rest).1,
         (subscribeLoop resub stats c rest).2)
      else
        (.recv (.msg u) :: sends.map .send
           ++ (if c + 1 = resub then [.send resubRequest] else [])
           ++ (subscribeLoop resub stats (c + 1) rest).1,
         (subscribeLoop resub stats (c + 1) rest).2)

/-- `geyser_subscribe`: run the session loop from counter 0 (the initial
request is handed to the transport and does not influence the loop). -/
def geyser_subscribe (resub : Nat) (stats : Bool) (items : List StreamItem) :
    List SessionEvent × SessionResult :=
  subscribeLoop resub stats 0 items

/-- The outbound requests of a trace, in send order. -/
def sentRequests (tr : List SessionEvent) : List SubscribeRequest :=
  tr.filterMap (fun e => match e with | .send r => some r | .recv _ => none)

/-- Occurrences of the resubscription request in a send list. -/
def countResub : List SubscribeRequest → Nat
  | [] => 0
  | r :: rs => (if r = resubRequest then 1 else 0) + countResub rs

/-! ## ConnectionSupervisor: the retry loop of `main` -/

/-- `backoff::Error`: transient errors are retried, permanent ones abort. -/
inductive RetryClass
  | transient
  | permanent
deriving DecidableEq

/-- The environment of one attempt of the retry closure: connecting either
fails (a transport error) or yields a stream delivering `items`. -/
inductive ConnectOutcome
  | connectFail
  | connected (items : List StreamItem)
deriving DecidableEq

/-- One invocation of the retry closure for the `Subscribe` action: `connect`
is awaited first (failure is transient); only then is
`get_subscribe_request` evaluated (failure is permanent); finally
`geyser_subscribe` runs (failure is transient). -/
def attemptStep (opts : ActionSubscribe) (commitment : Option Int)
    (fileEnv : String → Except VErr (List String)) (env : ConnectOutcome) :
    Except RetryClass Unit :=
  match env with
  | .connectFail => .error .transient
  | .connected items =>
    match get_subscribe_request opts commitment fileEnv with
    | .error _ => .error .permanent
    | .ok (_, resub, stats, _) =>
      match (geyser_subscribe resub stats items).2 with
      | .ok => .ok ()
      | .err => .error .transient

/-- How the process ends as seen from `main`: `exitedZero` is `Ok(())` from
`retry` (process status 0), `exitedNonzero` is a permanent error (non-zero
status), `retrying` means every supplied attempt ended transiently and the
supervisor is still waiting to retry. -/
inductive SupOutcome
  | exitedZero
  | exitedNonzero
  | retrying
deriving DecidableEq

/-- The `retry(ExponentialBackoff::default(), ..)` loop over a list of
per-attempt environments, also counting connection attempts (the closure
calls `connect` exactly once per invocation). Modelled from the spec: the
backoff driver is the external `backoff` crate, described by the spec as
retrying every transient error indefinitely with no attempt cap. -/
def supervisorRun (opts : ActionSubscribe) (commitment : Option Int)
    (fileEnv : String → Except VErr (List String)) :
    List ConnectOutcome → Nat → Nat × SupOutcome
  | [], n => (n, .retrying)
  | e :: rest, n =>
    match attemptStep opts commitment fileEnv e with
    | .ok _ => (n + 1, .exitedZero)
    | .error .permanent => (n + 1, .exitedNonzero)
    | .error .transient => supervisorRun opts commitment fileEnv rest (n + 1)

/-! ## Shared helpers for the statements below -/

deriving instance DecidableEq for Except

/-- The single `"client"` accounts entry produced for empty address/owner
lists and the given ordered filter list. -/
def soloAccountsFilter (fs : List SubscribeRequestFilterAccountsFilter) :
    SubscribeRequestFilterAccounts :=
  { account := []
    owner := []
    filters := fs
    nonempty_txn_signature := none }

/-- A request subscribing only to accounts, with the given filter list. -/
def soloAccountsReq (fs : List SubscribeRequestFilterAccountsFilter) : SubscribeRequest :=
  { SubscribeRequest.default with accounts := [("client", soloAccountsFilter fs)] }

/-- Options requesting accounts with the given memcmp filter strings. -/
def memcmpOpts (l : List String) : ActionSubscribe :=
  { baseOpts with accounts := true, accounts_memcmp := l }

/-- Options requesting accounts with the given lamports filter strings. -/
def lamportsOpts (l : List String) : ActionSubscribe :=
  { baseOpts with accounts := true, accounts_lamports := l }

/-- A well-formed `Ping` update (timestamp present). -/
def pingMsg : SubscribeUpdateMsg := ⟨true, true, some .ping⟩

/-- A message carrying no recognized tagged variant (timestamp present). -/
def noVariantMsg : SubscribeUpdateMsg := ⟨true, true, none⟩

/-- Options that fail validation: accounts requested with a memcmp filter
string containing no comma. -/
def invalidOpts : ActionSubscribe := memcmpOpts ["abc"]

/-! ## Supporting lemmas -/

lemma strMk_data (s : String) : String.mk s.data = s := rfl

lemma splitOnceAux_of_not_mem (sep : Char) :
    ∀ (l : List Char), sep ∉ l → splitOnceAux sep l = none := by
  intro l
  induction l with
  | nil => intro _; rfl
  | cons c cs ih =>
    intro h
    rw [List.mem_cons, not_or] at h
    simp [splitOnceAux, if_neg (Ne.symm h.1), ih h.2]

lemma splitOnceAux_of_append (sep : Char) (b : List Char) :
    ∀ (a : List Char), sep ∉ a → splitOnceAux sep (a ++ sep :: b) = some (a, b) := by
  intro a
  induction a with
  | nil => intro _; simp [splitOnceAux]
  | cons c cs ih =>
    intro h
    rw [List.mem_cons, not_or] at h
    simp [splitOnceAux, if_neg (Ne.symm h.1), ih h.2]

lemma splitOnce_eq_none (s : String) (sep : Char) (h : sep ∉ s.data) :
    splitOnce s sep = none := by
  simp [splitOnce, splitOnceAux_of_not_mem sep s.data h]

lemma splitOnce_concat (x y : String) (sep : Char) (h : sep ∉ x.data) :
    splitOnce (String.mk (x.data ++ sep :: y.data)) sep = some (x, y) := by
  simp [splitOnce, splitOnceAux_of_append sep y.data x.data h, strMk_data]

/-! ## Claim C1 -/

/-- Claim C1, counterexample: with subscription options whose memcmp filter
string `"abc"` fails validation, the supervisor does NOT make zero connection
attempts — the retry closure awaits `connect` before building the request, so
the process makes exactly one (successful) connection attempt before the
permanent exit, and even retries failed connects before validation ever runs
(second conjunct: a failed connect is retried, giving two connection
attempts). -/
theorem c1_counterexample :
    supervisorRun invalidOpts none fileEnvEmpty [.connected []] 0 = (1, .exitedNonzero)
    ∧ supervisorRun invalidOpts none fileEnvEmpty [.connectFail, .connected []] 0
        = (2, .exitedNonzero) := by
  decide

/-- Claim C1, amended: a validation error from building the SubscribeRequest
is classified permanent — the supervisor makes no retry after it and the
process exits with a non-zero status — but the request is built only after a
connection attempt succeeds, so exactly one connection attempt (not zero) is
made on the attempt that surfaces the error. -/
theorem c1_validation_error_permanent (opts : ActionSubscribe) (comm : Option Int)
    (fileEnv : String → Except VErr (List String)) (e : VErr)
    (items : List StreamItem) (rest : List ConnectOutcome)
    (h : get_subscribe_request opts comm fileEnv = .error e) :
    supervisorRun opts comm fileEnv (.connected items :: rest) 0 = (1, .exitedNonzero) := by
  simp [supervisorRun, attemptStep, h]

/-- Witness for `c1_validation_error_permanent` at the invalid memcmp
options. -/
theorem c1_witness :
    supervisorRun invalidOpts none fileEnvEmpty [.connected [], .connectFail] 0
      = (1, .exitedNonzero) :=
  c1_validation_error_permanent invalidOpts none fileEnvEmpty .invalidMemcmp [] [.connectFail]
    (by decide)

/-! ## Claim C2 -/

/-- Claim C2, counterexample: a message with no recognized tagged variant
makes the session loop `break` and `geyser_subscribe` return `Ok(())`; the
supervisor records the attempt as a SUCCESS (process exit status zero, one
attempt, no backoff-then-retry), contradicting the claimed transient-failure
report. -/
theorem c2_counterexample :
    geyser_subscribe 0 false [.msg noVariantMsg] = ([.recv (.msg noVariantMsg)], .ok)
    ∧ supervisorRun baseOpts none fileEnvEmpty [.connected [.msg noVariantMsg]] 0
        = (1, .exitedZero) := by
  decide

/-- Claim C2, amended: a message carrying no recognized tagged variant (with
its timestamp populated) terminates the session loop immediately in both
display and stats mode, with no outbound send and with the session reporting
success (`Ok(())`), so the supervisor treats the attempt as successful
completion — no retry occurs and the process exits with status zero. -/
theorem c2_no_variant_ends_session_ok (stats : Bool) (resub c : Nat) (pOk : Bool)
    (rest : List StreamItem) :
    subscribeLoop resub stats c (.msg ⟨true, pOk, none⟩ :: rest)
      = ([.recv (.msg ⟨true, pOk, none⟩)], .ok)
    ∧ supervisorRun baseOpts none fileEnvEmpty
        [.connected (.msg ⟨true, pOk, none⟩ :: rest)] 0 = (1, .exitedZero) := by
  have hb : get_subscribe_request baseOpts none fileEnvEmpty
      = .ok (SubscribeRequest.default, 0, false, false) := by decide
  have hs : ∀ (r cc : Nat), subscribeLoop r false cc (.msg ⟨true, pOk, none⟩ :: rest)
      = ([.recv (.msg ⟨true, pOk, none⟩)], .ok) := by
    intro r cc
    simp [subscribeLoop, processMsg]
  refine ⟨?_, ?_⟩
  · cases stats <;> simp [subscribeLoop, processMsg]
  · simp [supervisorRun, attemptStep, hb, geyser_subscribe, hs]

/-! ## Claim C4 -/

/-- Claim C4, counterexample: in stats mode a `Ping` update is only counted —
the session emits NO outbound acknowledgement at all, contradicting "in
display mode and in stats mode alike ... exactly one outbound request". -/
theorem c4_counterexample :
    geyser_subscribe 0 true [.msg pingMsg] = ([.recv (.msg pingMsg)], .ok) := by
  decide

/-- Claim C4, amended: in display mode, receiving a `Ping` update makes the
session send exactly one pong-style acknowledgement, and that send happens
before the next inbound message is consumed (the only events between the two
consumptions are the pong and, possibly, the counter-triggered resubscribe
request); in stats mode no outbound message is sent for a `Ping`. -/
theorem c4_ping_pong (resub c : Nat) (rest : List StreamItem) :
    (subscribeLoop resub false c (.msg pingMsg :: rest)).1
      = .recv (.msg pingMsg) :: .send pongReply
          :: ((if c + 1 = resub then [.send resubRequest] else [])
              ++ (subscribeLoop resub false (c + 1) rest).1)
    ∧ (subscribeLoop resub true c (.msg pingMsg :: rest)).1
        = .recv (.msg pingMsg) :: (subscribeLoop resub true c rest).1 := by
  constructor <;> simp [subscribeLoop, processMsg, pingMsg]

/-! ## Claim C5 -/

lemma supervisorRun_all_transient (opts : ActionSubscribe) (comm : Option Int)
    (fileEnv : String → Except VErr (List String)) :
    ∀ (envs : List ConnectOutcome) (n : Nat),
      (∀ e ∈ envs, attemptStep opts comm fileEnv e = .error .transient) →
      supervisorRun opts comm fileEnv envs n = (n + envs.length, .retrying) := by
  intro envs
  induction envs with
  | nil => intro n _; simp [supervisorRun]
  | cons e rest ih =>
    intro n h
    have he := h e (List.mem_cons_self e rest)
    have hr := ih (n + 1) (fun x hx => h x (List.mem_cons_of_mem e hx))
    simp [supervisorRun, he, hr]
    omega

/-- Claim C5: the supervisor's retry policy has no maximum retry count — for
every finite trace of attempts that all end transiently (failed connects,
transient session errors), the supervisor has made exactly one connection
attempt per element and is still retrying; it exits only when an attempt
succeeds or ends with a permanent error. (The backoff driver itself is the
external `backoff` crate, modelled from the spec as retrying every transient
error.) -/
theorem c5_unbounded_retries (opts : ActionSubscribe) (comm : Option Int)
    (fileEnv : String → Except VErr (List String)) (envs : List ConnectOutcome)
    (h : ∀ e ∈ envs, attemptStep opts comm fileEnv e = .error .transient) :
    supervisorRun opts comm fileEnv envs 0 = (envs.length, .retrying) := by
  simpa using supervisorRun_all_transient opts comm fileEnv envs 0 h

/-- Witness for `c5_unbounded_retries`: three failed connects in a row leave
the supervisor retrying after three attempts. -/
theorem c5_witness :
    supervisorRun baseOpts none fileEnvEmpty [.connectFail, .connectFail, .connectFail] 0
      = (3, .retrying) :=
  c5_unbounded_retries baseOpts none fileEnvEmpty [.connectFail, .connectFail, .connectFail]
    (by decide)

/-! ## Claim C10 -/

/-- Claim C10: the acknowledgement sent in response to a `Ping` always
carries ping identifier 1 with every other field at its default value,
independent of the ping identifier configured in the original subscribe
request: options configured with any ping id `i` produce a request whose
`ping` field is `Some(id: i)`, yet the session's reply to a `Ping` is always
the fixed `pongReply`, which equals the default request with ping id 1. -/
theorem c10_pong_id_fixed (i : Int) (resub c : Nat) (rest : List StreamItem) :
    (get_subscribe_request { baseOpts with ping := some i } none fileEnvEmpty).map
        (fun r => r.1.ping) = .ok (some ⟨i⟩)
    ∧ (sentRequests (subscribeLoop resub false c (.msg pingMsg :: rest)).1).head?
        = some pongReply
    ∧ pongReply = { SubscribeRequest.default with ping := some ⟨1⟩ } := by
  refine ⟨rfl, ?_, rfl⟩
  simp [subscribeLoop, processMsg, pingMsg, sentRequests]

/-! ## Claim C3 -/

/-- A message the display path processes to the end of the loop body
(timestamp present, recognized variant, payload decodes). -/
def displayProcessed (u : SubscribeUpdateMsg) : Bool :=
  match processMsg false u with
  | .cont _ => true
  | .halt _ => false

lemma sentRequests_append (a b : List SessionEvent) :
    sentRequests (a ++ b) = sentRequests a ++ sentRequests b := by
  simp [sentRequests]

lemma sentRequests_map_send (l : List SubscribeRequest) :
    sentRequests (l.map .send) = l := by
  induction l with
  | nil => rfl
  | cons r rs ih => simp [sentRequests] at ih ⊢; exact ih

lemma countResub_append (a b : List SubscribeRequest) :
    countResub (a ++ b) = countResub a + countResub b := by
  induction a with
  | nil => simp [countResub]
  | cons r rs ih => simp [countResub, ih]; omega

lemma display_cont_sends (u : SubscribeUpdateMsg) (sends : List SubscribeRequest)
    (h : processMsg false u = .cont sends) : sends = [] ∨ sends = [pongReply] := by
  rcases u with ⟨ca, po, v⟩
  cases ca <;> cases po <;> rcases v with _ | v <;> (try cases v) <;>
    simp_all [processMsg]

lemma countResub_pong_or_nil (sends : List SubscribeRequest)
    (h : sends = [] ∨ sends = [pongReply]) : countResub sends = 0 := by
  rcases h with h | h <;> subst h <;> decide

lemma stats_cont_sends (u : SubscribeUpdateMsg) (sends : List SubscribeRequest)
    (h : processMsg true u = .cont sends) : sends = [] := by
  rcases u with ⟨ca, po, v⟩
  rcases v with _ | v <;> simp_all [processMsg]

lemma stats_no_sends (resub : Nat) :
    ∀ (items : List StreamItem) (c : Nat),
      sentRequests (subscribeLoop resub true c items).1 = [] := by
  intro items
  induction items with
  | nil => intro c; simp [subscribeLoop, sentRequests]
  | cons it rest ih =>
    intro c
    cases it with
    | streamErr => simp [subscribeLoop, sentRequests]
    | msg u =>
      cases hp : processMsg true u with
      | halt r => simp [subscribeLoop, hp, sentRequests]
      | cont sends =>
        have hse := stats_cont_sends u sends hp
        subst hse
        simp [subscribeLoop, hp, sentRequests] at ih ⊢
        exact ih c

lemma sentRequests_cons_recv (x : StreamItem) (t : List SessionEvent) :
    sentRequests (.recv x :: t) = sentRequests t := by
  simp [sentRequests]

lemma display_count_general (resub : Nat) :
    ∀ (us : List SubscribeUpdateMsg) (c : Nat),
      (∀ u ∈ us, displayProcessed u = true) →
      countResub (sentRequests (subscribeLoop resub false c (us.map .msg)).1)
        = if c < resub ∧ resub ≤ c + us.length then 1 else 0 := by
  intro us
  induction us with
  | nil =>
    intro c _
    simp only [List.map_nil, subscribeLoop, sentRequests, List.filterMap_nil,
      countResub, List.length_nil]
    split_ifs <;> omega
  | cons u rest ih =>
    intro c h
    have hu := h u (List.mem_cons_self u rest)
    cases hp : processMsg false u with
    | halt r => simp [displayProcessed, hp] at hu
    | cont sends =>
      have h0 : countResub sends = 0 :=
        countResub_pong_or_nil sends (display_cont_sends u sends hp)
      have hrest := ih (c + 1) (fun x hx => h x (List.mem_cons_of_mem u hx))
      have hif : countResub (sentRequests
          (if c + 1 = resub then [.send resubRequest] else []))
          = if c + 1 = resub then 1 else 0 := by
        by_cases hc : c + 1 = resub <;> simp [hc, sentRequests, countResub]
      rw [List.map_cons]
      rw [show subscribeLoop resub false c (.msg u :: rest.map .msg)
            = (.recv (.msg u) :: sends.map .send
                ++ (if c + 1 = resub then [.send resubRequest] else [])
                ++ (subscribeLoop resub false (c + 1) (rest.map .msg)).1,
               (subscribeLoop resub false (c + 1) (rest.map .msg)).2) from by
        simp [subscribeLoop, hp]]
      simp only [sentRequests_append, sentRequests_cons_recv, List.cons_append,
        sentRequests_map_send, countResub_append, h0, hrest, hif, List.length_cons]
      split_ifs <;> omega

/-- Claim C3, counterexample: with `resub = 3` in display mode, a stream of
three `Ping` messages — zero non-control messages — already triggers the one
resubscribe request: every processed message advances the counter, control
variants included, refuting "after exactly 3 successfully processed
non-control messages". -/
theorem c3_counterexample :
    geyser_subscribe 3 false [.msg pingMsg, .msg pingMsg, .msg pingMsg]
      = ([.recv (.msg pingMsg), .send pongReply,
          .recv (.msg pingMsg), .send pongReply,
          .recv (.msg pingMsg), .send pongReply, .send resubRequest], .ok) := by
  decide

/-- Claim C3, amended: in display mode with threshold `resub`, the session
transmits the resubscribe request exactly once, namely as soon as `resub`
messages of ANY recognized variant (ping/pong included) have been fully
processed, and never when the stream is shorter or `resub = 0`; the request
subscribes to a single default slots entry and clears every other category;
in stats mode the counter never advances and nothing is ever sent. -/
theorem c3_resub_exactly_once (resub : Nat) (us : List SubscribeUpdateMsg)
    (h : ∀ u ∈ us, displayProcessed u = true) :
    countResub (sentRequests (geyser_subscribe resub false (us.map .msg)).1)
      = (if 0 < resub ∧ resub ≤ us.length then 1 else 0)
    ∧ (∀ (r : Nat) (items : List StreamItem),
        sentRequests (geyser_subscribe r true items).1 = [])
    ∧ resubRequest = { SubscribeRequest.default with
        slots := [("client", { filter_by_commitment := none, interslot_updates := none })] } := by
  refine ⟨?_, fun r items => stats_no_sends r items 0, rfl⟩
  simpa using display_count_general resub us 0 h

/-- Witness for `c3_resub_exactly_once`: three processed slot updates with
`resub = 3` yield exactly one resubscribe request. -/
theorem c3_witness :
    countResub (sentRequests (geyser_subscribe 3 false
      ([⟨true, true, some .slot⟩, ⟨true, true, some .slot⟩,
        ⟨true, true, some .slot⟩].map StreamItem.msg)).1) = 1 := by
  have h := (c3_resub_exactly_once 3
    [⟨true, true, some .slot⟩, ⟨true, true, some .slot⟩, ⟨true, true, some .slot⟩]
    (by decide)).1
  simpa using h

/-! ## Claims C6, C7, C9: the builder on one-filter option records -/

lemma gsr_memcmp_eq (l : List String) :
    get_subscribe_request (memcmpOpts l) none fileEnvEmpty
      = (buildMemcmpFilters l).map (fun fs => (soloAccountsReq fs, 0, false, false)) := by
  cases h : buildMemcmpFilters l <;>
    simp [get_subscribe_request, buildAccountsMap, memcmpOpts, baseOpts, h,
      buildLamportsFilters, buildDataSlices, soloAccountsReq, soloAccountsFilter,
      SubscribeRequest.default, Except.map]

lemma gsr_lamports_eq (l : List String) :
    get_subscribe_request (lamportsOpts l) none fileEnvEmpty
      = (buildLamportsFilters l).map (fun fs => (soloAccountsReq fs, 0, false, false)) := by
  cases h : buildLamportsFilters l <;>
    simp [get_subscribe_request, buildAccountsMap, lamportsOpts, baseOpts, h,
      buildMemcmpFilters, buildDataSlices, soloAccountsReq, soloAccountsFilter,
      SubscribeRequest.default, Except.map]

/-- Claim C6: the memcmp filter string `"10,abc"` yields exactly one account
filter entry with offset 10 and base-58 payload `"abc"`; a memcmp string with
no comma fails with the `invalid memcmp` validation error, and one whose
offset part does not parse as an unsigned 64-bit integer fails with the
`invalid offset` validation error. -/
theorem c6_memcmp (s d : String) :
    get_subscribe_request (memcmpOpts ["10,abc"]) none fileEnvEmpty
        = .ok (soloAccountsReq [⟨some (.memcmp ⟨10, some (.base58 "abc")⟩)⟩], 0, false, false)
    ∧ (',' ∉ s.data →
        get_subscribe_request (memcmpOpts [s]) none fileEnvEmpty = .error .invalidMemcmp)
    ∧ (',' ∉ s.data → parseU64 s = none →
        get_subscribe_request (memcmpOpts [String.mk (s.data ++ ',' :: d.data)])
          none fileEnvEmpty = .error .invalidOffset) := by
  refine ⟨by decide, ?_, ?_⟩
  · intro hs
    rw [gsr_memcmp_eq]
    simp [buildMemcmpFilters, splitOnce_eq_none s ',' hs, Except.map]
  · intro hs hp
    rw [gsr_memcmp_eq]
    simp [buildMemcmpFilters, splitOnce_concat s d ',' hs, hp, Except.map]

/-- Witness for `c6_memcmp` at the comma-free string `"xyz"` and the
non-numeric offset `"zz,abc"`. -/
theorem c6_witness :
    get_subscribe_request (memcmpOpts ["xyz"]) none fileEnvEmpty = .error .invalidMemcmp
    ∧ get_subscribe_request (memcmpOpts [String.mk ("zz".data ++ ',' :: "abc".data)])
        none fileEnvEmpty = .error .invalidOffset :=
  ⟨(c6_memcmp "xyz" "").2.1 (by decide),
   (c6_memcmp "zz" "abc").2.2 (by decide) (by decide)⟩

/-- Claim C7: a lamports filter string `cmp:value` with `value` parsing as an
unsigned 64-bit integer produces the filter given by the comparator table
(`eq`/`ne`/`lt`/`gt` mapped to the matching comparator carrying the value,
anything else the `invalid lamports filter` error); an unparsable value is
the `invalid lamports value` error, and a string with no colon is the
`invalid lamports` error. `"gt:100"` concretely yields greater-than 100. -/
theorem c7_lamports (cmp val s : String) (v : Nat) :
    get_subscribe_request (lamportsOpts ["gt:100"]) none fileEnvEmpty
        = .ok (soloAccountsReq [⟨some (.lamports ⟨some (.gt 100)⟩)⟩], 0, false, false)
    ∧ (':' ∉ cmp.data → parseU64 val = some v →
        get_subscribe_request (lamportsOpts [String.mk (cmp.data ++ ':' :: val.data)])
            none fileEnvEmpty
          = (match lamportsCmpOf cmp v with
             | some lc => .ok (soloAccountsReq [⟨some (.lamports ⟨some lc⟩)⟩], 0, false, false)
             | none => .error (.invalidLamportsFilter cmp)))
    ∧ (':' ∉ cmp.data → parseU64 val = none →
        get_subscribe_request (lamportsOpts [String.mk (cmp.data ++ ':' :: val.data)])
            none fileEnvEmpty = .error (.invalidLamportsValue val))
    ∧ (':' ∉ s.data →
        get_subscribe_request (lamportsOpts [s]) none fileEnvEmpty = .error .invalidLamports)
    ∧ (∀ (w : Nat), lamportsCmpOf "eq" w = some (.eq w) ∧ lamportsCmpOf "ne" w = some (.ne w)
        ∧ lamportsCmpOf "lt" w = some (.lt w) ∧ lamportsCmpOf "gt" w = some (.gt w)) := by
  refine ⟨by decide, ?_, ?_, ?_, fun w => ⟨rfl, rfl, rfl, rfl⟩⟩
  · intro hc hv
    rw [gsr_lamports_eq]
    cases hl : lamportsCmpOf cmp v <;>
      simp [buildLamportsFilters, splitOnce_concat cmp val ':' hc, hv, hl, Except.map,
        soloAccountsReq, soloAccountsFilter]
  · intro hc hv
    rw [gsr_lamports_eq]
    simp [buildLamportsFilters, splitOnce_concat cmp val ':' hc, hv, Except.map]
  · intro hs
    rw [gsr_lamports_eq]
    simp [buildLamportsFilters, splitOnce_eq_none s ':' hs, Except.map]

/-- Witness for `c7_lamports`: `"lt:7"` yields less-than 7, `"foo:100"` the
comparator error, `"gt:zz"` the value error, and `"gt100"` the no-colon
error. -/
theorem c7_witness :
    get_subscribe_request (lamportsOpts [String.mk ("lt".data ++ ':' :: "7".data)])
        none fileEnvEmpty
      = .ok (soloAccountsReq [⟨some (.lamports ⟨some (.lt 7)⟩)⟩], 0, false, false)
    ∧ get_subscribe_request (lamportsOpts [String.mk ("foo".data ++ ':' :: "100".data)])
        none fileEnvEmpty = .error (.invalidLamportsFilter "foo")
    ∧ get_subscribe_request (lamportsOpts [String.mk ("gt".data ++ ':' :: "zz".data)])
        none fileEnvEmpty = .error (.invalidLamportsValue "zz")
    ∧ get_subscribe_request (lamportsOpts ["gt100"]) none fileEnvEmpty
        = .error .invalidLamports :=
  ⟨(c7_lamports "lt" "7" "x" 7).2.1 (by decide) (by decide),
   (c7_lamports "foo" "100" "x" 100).2.1 (by decide) (by decide),
   (c7_lamports "gt" "zz" "x" 0).2.2.1 (by decide) (by decide),
   (c7_lamports "x" "x" "gt100" 0).2.2.2.1 (by decide)⟩

/-- The request produced from the all-default options with only the accounts
flag possibly set and the given parsed data slices. -/
def accountsSlicesReq (b : Bool) (ds : List SubscribeRequestAccountsDataSlice) :
    SubscribeRequest :=
  { SubscribeRequest.default with
      accounts := if b then [("client", soloAccountsFilter [])] else []
      accounts_data_slice := ds }

/-- Claim C9: the accounts data-slice strings are parsed and included in the
request unconditionally — with the accounts category enabled or disabled
alike, the result is exactly the outcome of parsing the slice strings: a
malformed string fails validation even when accounts are not requested, and
well-formed slices appear in the request. -/
theorem c9_data_slice_unconditional (b : Bool) (ss : List String) :
    get_subscribe_request { baseOpts with accounts := b, accounts_data_slice := ss }
        none fileEnvEmpty
      = (buildDataSlices ss).map (fun ds => (accountsSlicesReq b ds, 0, false, false))
    ∧ buildDataSlices ["5,10"] = .ok [⟨5, 10⟩]
    ∧ buildDataSlices ["bad"] = .error .invalidDataSlice := by
  refine ⟨?_, by decide, by decide⟩
  cases b <;> cases h : buildDataSlices ss <;>
    simp [get_subscribe_request, buildAccountsMap, baseOpts, h, buildMemcmpFilters,
      buildLamportsFilters, accountsSlicesReq, soloAccountsFilter,
      SubscribeRequest.default, Except.map]

/-! ## Claim C8 -/

lemma buildAccountsMap_shape (opts : ActionSubscribe)
    (fileEnv : String → Except VErr (List String)) (a : AccountFilterMap)
    (h : buildAccountsMap opts fileEnv = .ok a) :
    (opts.accounts = false → a = []) ∧ (opts.accounts = true → ∃ f, a = [("client", f)]) := by
  unfold buildAccountsMap at h
  cases hA : opts.accounts
  · rw [hA] at h
    simp only [Bool.false_eq_true, if_false, Except.ok.injEq] at h
    exact ⟨fun _ => h.symm, fun hc => nomatch hc⟩
  · refine ⟨fun hc => (nomatch hc), fun _ => ?_⟩
    rw [hA, if_pos rfl] at h
    repeat' split at h
    all_goals first
      | exact (Except.noConfusion h)
      | exact ⟨_, (Except.ok.inj h).symm⟩

/-- Claim C8: for every successfully built SubscribeRequest, each category
map is exactly the single `"client"`-labelled entry when the category's
enable flag is set, and empty otherwise — so a map is non-empty iff its
category was requested, and a non-empty map holds exactly one entry under
the single fixed label. -/
theorem c8_category_map_iff_flag (opts : ActionSubscribe) (comm : Option Int)
    (fileEnv : String → Except VErr (List String)) (req : SubscribeRequest)
    (r : Nat) (st ve : Bool)
    (h : get_subscribe_request opts comm fileEnv = .ok (req, r, st, ve)) :
    ((opts.accounts = true → ∃ f, req.accounts = [("client", f)])
      ∧ (opts.accounts = false → req.accounts = []))
    ∧ ((opts.slots = true → ∃ f, req.slots = [("client", f)])
      ∧ (opts.slots = false → req.slots = []))
    ∧ ((opts.transactions = true → ∃ f, req.transactions = [("client", f)])
      ∧ (opts.transactions = false → req.transactions = []))
    ∧ ((opts.transactions_status = true → ∃ f, req.transactions_status = [("client", f)])
      ∧ (opts.transactions_status = false → req.transactions_status = []))
    ∧ ((opts.entries = true → ∃ f, req.entry = [("client", f)])
      ∧ (opts.entries = false → req.entry = []))
    ∧ ((opts.blocks = true → ∃ f, req.blocks = [("client", f)])
      ∧ (opts.blocks = false → req.blocks = []))
    ∧ ((opts.blocks_meta = true → ∃ f, req.blocks_meta = [("client", f)])
      ∧ (opts.blocks_meta = false → req.blocks_meta = [])) := by
  unfold get_subscribe_request at h
  cases hacc : buildAccountsMap opts fileEnv with
  | error e => rw [hacc] at h; exact (Except.noConfusion h)
  | ok a =>
    simp only [hacc] at h
    cases hds : buildDataSlices opts.accounts_data_slice with
    | error e => rw [hds] at h; exact (Except.noConfusion h)
    | ok ds =>
      simp only [hds, Except.ok.injEq, Prod.mk.injEq] at h
      obtain ⟨hreq, -⟩ := h
      subst hreq
      have hAcc := buildAccountsMap_shape opts fileEnv a hacc
      refine ⟨⟨hAcc.2, hAcc.1⟩, ⟨?_, ?_⟩, ⟨?_, ?_⟩, ⟨?_, ?_⟩, ⟨?_, ?_⟩, ⟨?_, ?_⟩, ⟨?_, ?_⟩⟩ <;>
        intro hb <;> simp [hb] <;> exact ⟨⟨⟩, trivial⟩

/-- The request built from the all-default options with only slots enabled. -/
def slotsOnlyReq : SubscribeRequest :=
  { SubscribeRequest.default with
      slots := [("client", { filter_by_commitment := none, interslot_updates := none })] }

/-- Witness for `c8_category_map_iff_flag` at options enabling only slots:
the slots map is the single `"client"` entry and the accounts map is empty. -/
theorem c8_witness :
    (∃ f, slotsOnlyReq.slots = [("client", f)]) ∧ slotsOnlyReq.accounts = [] :=
  ⟨(c8_category_map_iff_flag { baseOpts with slots := true } none fileEnvEmpty
      slotsOnlyReq 0 false false (by decide)).2.1.1 rfl,
   (c8_category_map_iff_flag { baseOpts with slots := true } none fileEnvEmpty
      slotsOnlyReq 0 false false (by decide)).1.2 rfl⟩
